import Mathlib

/-!
Verification of the moderation engine in `src/main.py` (a Telegram webhook
moderation bot).  The core logic — per-chat settings, the whitelist store,
URL/domain extraction, the domain matcher, and the `security_filter`
policy pipeline with its in-memory flood buckets — is embedded shallowly
below; theorems about the spec's claims follow the definitions.

Modelling conventions:
* SQLite rows are plain Lean structures; the settings row of one chat is an
  `Option ChatSettings` (`none` = row absent).  SQLite `INTEGER` columns are
  `Int`, `TEXT` columns are `String`.
* Timestamps (`time.time()`, `joined_at_ts`) are `Int` seconds.  The source
  calls `time.time()` twice during one `security_filter` invocation (once for
  the newbie window, once for the flood bucket); both are modelled by the
  single event timestamp `Event.now`.
* The decision emitted for one event is a `List Act` in emission order.
  `msg.delete()`, `restrict_chat_member` and `log_action` call sites emit
  `Act.delete`, `Act.restrictA` and `Act.log`; the actuator outcome
  of the delete and the restrict calls is an input (`Event.deleteOk`,
  `Event.restrictOk`) because the source's `try/except` around those calls
  changes which later actions are reached.  `log_action` itself swallows its
  send errors and its `log_mode` gate performs no control flow, so a `.log`
  action is emitted at each `log_action` call site.
* Python string functions are modelled over ASCII text: `.lower()` maps
  characters with `Char.toLower`, `.strip()`/`\S`/`.split()` use the ASCII
  whitespace class.
-/

/-- A value written to a SQLite column: the columns used by `set_setting`
are `INTEGER` or `TEXT`. -/
inductive DbValue where
  | intV : Int → DbValue
  | textV : String → DbValue
deriving DecidableEq, Repr

/-- One row of the `chat_settings` table (`init_db`, src/main.py:39-48). -/
structure ChatSettings where
  anti_links : Int
  flood_n : Int
  flood_window_sec : Int
  flood_mute_min : Int
  newbie_protect_min : Int
  log_mode : String
deriving DecidableEq, Repr

/-- The column defaults declared in `init_db`:
`anti_links 1, flood_n 6, flood_window_sec 10, flood_mute_min 15,
newbie_protect_min 15, log_mode 'here'`. -/
def default_settings : ChatSettings :=
  { anti_links := 1, flood_n := 6, flood_window_sec := 10, flood_mute_min := 15,
    newbie_protect_min := 15, log_mode := "here" }

/-- `ensure_chat` (src/main.py:65-67): `INSERT OR IGNORE` of the default row —
an absent row becomes the default row, an existing row is kept. -/
def ensure_chat (row : Option ChatSettings) : ChatSettings :=
  row.getD default_settings

/-- The column update performed by `UPDATE chat_settings SET {key}=?`
(src/main.py:78).  The column name is interpolated unvalidated into the SQL
text; a name that is not a column of `chat_settings` makes SQLite raise an
`OperationalError`, modelled as `none`.  No range check of any kind is
applied to the value. -/
def update_column (s : ChatSettings) (key : String) (v : DbValue) : Option ChatSettings :=
  match key, v with
  | "anti_links", DbValue.intV i => some { s with anti_links := i }
  | "flood_n", DbValue.intV i => some { s with flood_n := i }
  | "flood_window_sec", DbValue.intV i => some { s with flood_window_sec := i }
  | "flood_mute_min", DbValue.intV i => some { s with flood_mute_min := i }
  | "newbie_protect_min", DbValue.intV i => some { s with newbie_protect_min := i }
  | "log_mode", DbValue.textV t => some { s with log_mode := t }
  | _, _ => none

/-- `set_setting` (src/main.py:75-78): `ensure_chat` first (so the row exists
afterwards even when the update fails), then the dynamic-column `UPDATE`.
Returns the resulting row state and whether the statement succeeded. -/
def set_setting (row : Option ChatSettings) (key : String) (v : DbValue) :
    Option ChatSettings × Bool :=
  match update_column (ensure_chat row) key v with
  | some s2 => (some s2, true)
  | none => (some (ensure_chat row), false)

/-- ASCII whitespace, the characters of Python's `\s` / `str.strip()` /
`str.split()` default class that fit in ASCII. -/
def pyIsSpace (c : Char) : Bool :=
  c = ' ' || c = '\t' || c = '\n' || c = '\r' || c = '\x0b' || c = '\x0c'

/-- Python `str.lower()` on ASCII text. -/
def pyLower (s : String) : String :=
  String.mk (s.toList.map Char.toLower)

/-- Python `str.strip()` on ASCII text. -/
def pyStrip (s : String) : String :=
  String.mk (((s.toList.dropWhile pyIsSpace).reverse.dropWhile pyIsSpace).reverse)

/-- Python `str.endswith(suffix)`. -/
def pyEndsWith (s suf : String) : Bool :=
  suf.toList.isSuffixOf s.toList

/-- Accumulator pass for `pySplit`: `acc` holds the current word reversed. -/
def pySplitAux : List Char → List Char → List String
  | [], acc => if acc = [] then [] else [String.mk acc.reverse]
  | c :: cs, acc =>
    if pyIsSpace c then
      if acc = [] then pySplitAux cs []
      else String.mk acc.reverse :: pySplitAux cs []
    else pySplitAux cs (c :: acc)

/-- Python `str.split()` (no argument): split on whitespace runs, no empty
parts. -/
def pySplit (s : String) : List String :=
  pySplitAux s.toList []

/-- Python `int(p)` for a digit string. -/
def pyToNat (s : String) : Nat :=
  s.toList.foldl (fun n c => n * 10 + (c.toNat - '0'.toNat)) 0

/-- Python `str.isdigit()` restricted to ASCII: nonempty and all digits. -/
def pyIsDigit (p : String) : Bool :=
  p ≠ "" && p.toList.all Char.isDigit

/-- The whitelist rows of one chat (`whitelist_domains`, PRIMARY KEY
`(chat_id, domain)`), as the list of stored domains in insertion order;
the primary key keeps it duplicate-free. -/
abbrev Whitelist := List String

/-- `add_whitelist` (src/main.py:80-84): normalize with
`domain.lower().strip()`, then `INSERT OR IGNORE` — a duplicate is a no-op. -/
def add_whitelist (wl : Whitelist) (domain : String) : Whitelist :=
  let d := pyStrip (pyLower domain)
  if wl.contains d then wl else wl ++ [d]

/-- `list_whitelist` (src/main.py:86-90): `SELECT domain ... ORDER BY domain`
(SQLite BINARY collation = code-point order). -/
def list_whitelist (wl : Whitelist) : List String :=
  wl.mergeSort (fun a b => decide (a ≤ b))

/-- `domain_allowed` (src/main.py:127-131): lower-case the domain and test
`d == w or d.endswith("." + w)` against the chat's whitelist. -/
def domain_allowed (wl : Whitelist) (domain : String) : Bool :=
  let d := pyLower domain
  wl.any (fun w => d == w || pyEndsWith d ("." ++ w))

/-- Case-insensitive prefix test on character lists (the regex is compiled
with `re.IGNORECASE`; the patterns below are lower-case). -/
def lowerStartsWith : List Char → List Char → Bool
  | _, [] => true
  | [], _ :: _ => false
  | c :: cs, p :: ps => (c.toLower = p) && lowerStartsWith cs ps

/-- Length of a match of `URL_RE = (https?://\S+|t\.me/\S+|www\.\S+)` starting
exactly at the head of `cs`, if any.  Each alternative is a literal prefix
followed by a greedy `\S+`, so a match is the whole maximal non-space run at
this position, provided the run extends at least one character past the
literal prefix. -/
def urlMatchLen (cs : List Char) : Option Nat :=
  let run := (cs.takeWhile (fun c => !pyIsSpace c)).length
  if (lowerStartsWith cs "https://".toList && run ≥ 9)
      || (lowerStartsWith cs "http://".toList && run ≥ 8)
      || (lowerStartsWith cs "t.me/".toList && run ≥ 6)
      || (lowerStartsWith cs "www.".toList && run ≥ 5) then
    some run
  else
    none

/-- `URL_RE.finditer`: leftmost non-overlapping matches; on a failed position
advance one character, after a match continue past it.  The fuel is the
remaining text length (every step consumes at least one character). -/
def findMatchesAux : Nat → List Char → List (List Char)
  | 0, _ => []
  | _, [] => []
  | Nat.succ fuel, c :: cs =>
    match urlMatchLen (c :: cs) with
    | some len => (c :: cs).take len :: findMatchesAux fuel ((c :: cs).drop len)
    | none => findMatchesAux fuel cs

def findMatches (cs : List Char) : List (List Char) :=
  findMatchesAux cs.length cs

/-- The scheme-prefixing of `extract_domains` (src/main.py:115-118): first
`www.` → prepend `http://`, then `t.me/` → prepend `https://` (both checks on
the lower-cased text, applied in that order as in the source). -/
def normalizeRaw (raw : List Char) : List Char :=
  let raw1 := if lowerStartsWith raw "www.".toList then "http://".toList ++ raw else raw
  if lowerStartsWith raw1 "t.me/".toList then "https://".toList ++ raw1 else raw1

/-- `urlparse(raw).netloc`: strip a valid `scheme:`, then, if the rest starts
with `//`, the netloc runs up to the next `/`, `?` or `#`; unbalanced square
brackets raise `ValueError` (the source's `except` branch), modelled as
`none`.  Without a `//` the netloc is the empty string. -/
def pyNetloc (url : List Char) : Option (List Char) :=
  let rest :=
    match url.findIdx? (fun c => c = ':') with
    | some i =>
      let pre := url.take i
      if pre ≠ [] && (pre.headD 'a').isAlpha
          && pre.all (fun c => c.isAlpha || c.isDigit || c = '+' || c = '-' || c = '.') then
        url.drop (i + 1)
      else url
    | none => url
  if rest.take 2 = ['/', '/'] then
    let netloc := (rest.drop 2).takeWhile (fun c => c ≠ '/' && c ≠ '?' && c ≠ '#')
    if (netloc.contains '[' && !netloc.contains ']')
        || (netloc.contains ']' && !netloc.contains '[') then
      none
    else some netloc
  else some []

/-- `extract_domains` (src/main.py:111-125): for each `URL_RE` match,
scheme-normalize, parse, and keep the lower-cased netloc when it is nonempty;
parse failures contribute nothing. -/
def extract_domains (text : String) : List String :=
  (findMatches text.toList).filterMap (fun raw =>
    match pyNetloc (normalizeRaw raw) with
    | some netloc =>
      if netloc ≠ [] then some (String.mk (netloc.map Char.toLower)) else none
    | none => none)

/-- `is_adminish` (src/main.py:108-109): `ChatMemberStatus.ADMINISTRATOR` is
`"administrator"`, `ChatMemberStatus.OWNER` is `"creator"`. -/
def is_adminish (status : String) : Bool :=
  status == "administrator" || status == "creator"

/-- The decision actions dispatched by `security_filter`: the `msg.delete()`,
`restrict_user` (with its mute duration in minutes) and `log_action` call
sites.  The source's "allow" outcome is a bare `return` that emits none of
these. -/
inductive Act where
  | delete : Act
  | restrictA : Int → Act
  | log : String → Act
deriving DecidableEq, Repr

def linkLogText (u : String) : String := s!"Deleted link from @{u}"

def newbieMuteLogText (m : Int) : String := s!"Muted newbie for links ({m} min)"

def forwardLogText (u : String) : String := s!"Deleted forward from newbie @{u}"

def mediaLogText (u : String) : String := s!"Deleted media from newbie @{u}"

def floodLogText (u : String) (m : Int) : String := s!"Muted for flood @{u} ({m} min)"

/-- One inbound message event as `security_filter` sees it.
`memberStatus` is the result of the `get_chat_member` call (`none` = the call
raised, the source's `except: pass`).  `msgText`/`msgCaption` are
`msg.text`/`msg.caption` (`none` = absent).  The `has…` flags are the
truthiness of `msg.forward_date`, `msg.forward_origin`, `msg.photo`,
`msg.video`, `msg.document`.  `userDisp` is `msg.from_user.username or
msg.from_user.id` as displayed in log texts.  `now` is the event's
`time.time()`.  `deleteOk`/`restrictOk` say whether the actuator calls
`msg.delete()` / `restrict_chat_member` return normally or raise. -/
structure Event where
  memberStatus : Option String
  msgText : Option String
  msgCaption : Option String
  hasForwardDate : Bool
  hasForwardOrigin : Bool
  hasPhoto : Bool
  hasVideo : Bool
  hasDocument : Bool
  userDisp : String
  now : Int
  deleteOk : Bool
  restrictOk : Bool
deriving DecidableEq, Repr

/-- The admin skip condition (src/main.py:289-294): `get_chat_member`
succeeded and the status is adminish; an exception falls through to the
rules. -/
def admin_gate (ev : Event) : Bool :=
  match ev.memberStatus with
  | some st => is_adminish st
  | none => false

/-- Python `a or b` for an optional string against a string default:
`None` and `""` are falsy. -/
def orEmpty (a : Option String) (b : String) : String :=
  match a with
  | some t => if t = "" then b else t
  | none => b

/-- `text = msg.text or msg.caption or ""` (src/main.py:300). -/
def evText (ev : Event) : String :=
  orEmpty ev.msgText (orEmpty ev.msgCaption "")

/-- The same event with every forward and media flag cleared (used to state
that a rule never reads those flags). -/
def clearFlags (ev : Event) : Event :=
  { ev with
      hasForwardDate := false, hasForwardOrigin := false, hasPhoto := false,
      hasVideo := false, hasDocument := false }

/-- The newbie test (src/main.py:303-307): `is_newbie` stays `False` unless
`join_ts` is truthy (so a `None` row *and* a recorded timestamp `0` are both
"not a newbie"), else `now - join_ts < newbie_protect_min * 60`. -/
def is_newbie (s : ChatSettings) (joinTs : Option Int) (now : Int) : Bool :=
  match joinTs with
  | none => false
  | some t => if t = 0 then false else decide (now - t < s.newbie_protect_min * 60)

/-- The flood block (src/main.py:346-363): trim the bucket to timestamps with
`now - t <= flood_window_sec`, append `now`, store it back; if the new length
exceeds `flood_n`, try `restrict_user(flood_mute_min)` then log (the log is
skipped when the restrict raises; the exception is swallowed).  Returns the
emitted actions and the new bucket of this `(chat_id, user_id)` key (the only
`FLOOD_BUCKET` entry the call touches). -/
def flood_part (s : ChatSettings) (ev : Event) (bucket : List Int) :
    List Act × List Int :=
  let bucket2 := bucket.filter (fun t => ev.now - t ≤ s.flood_window_sec) ++ [ev.now]
  if (bucket2.length : Int) > s.flood_n then
    (if ev.restrictOk then
        [Act.restrictA s.flood_mute_min,
         Act.log (floodLogText ev.userDisp s.flood_mute_min)]
      else [Act.restrictA s.flood_mute_min], bucket2)
  else ([], bucket2)

/-- The newbie forward/media block (src/main.py:330-344): for a newbie, a
forward or a media message is deleted and logged (log skipped when the delete
raises) and the handler returns; otherwise fall through to the flood block. -/
def newbie_part (s : ChatSettings) (joinTs : Option Int) (ev : Event)
    (bucket : List Int) : List Act × List Int :=
  if is_newbie s joinTs ev.now then
    if ev.hasForwardDate || ev.hasForwardOrigin then
      (if ev.deleteOk then
          [Act.delete, Act.log (forwardLogText ev.userDisp)]
        else [Act.delete], bucket)
    else if ev.hasPhoto || ev.hasVideo || ev.hasDocument then
      (if ev.deleteOk then
          [Act.delete, Act.log (mediaLogText ev.userDisp)]
        else [Act.delete], bucket)
    else flood_part s ev bucket
  else flood_part s ev bucket

/-- The anti-link block (src/main.py:310-327): when `anti_links == 1`, a
nonempty extraction with some non-whitelisted domain triggers the delete; if
the delete raises the handler returns at once (src/main.py:317-318),
otherwise the link log is emitted and a newbie additionally gets
`restrict(flood_mute_min)` plus its log (that log skipped when the restrict
raises); the branch then returns.  In every other case fall through to the
newbie forward/media block. -/
def links_part (s : ChatSettings) (wl : Whitelist) (joinTs : Option Int)
    (ev : Event) (bucket : List Int) : List Act × List Int :=
  if s.anti_links = 1 then
    if extract_domains (evText ev) = [] then newbie_part s joinTs ev bucket
    else if (extract_domains (evText ev)).all (fun d => domain_allowed wl d) then
      newbie_part s joinTs ev bucket
    else if ev.deleteOk then
      if is_newbie s joinTs ev.now then
        if ev.restrictOk then
          ([Act.delete, Act.log (linkLogText ev.userDisp),
            Act.restrictA s.flood_mute_min,
            Act.log (newbieMuteLogText s.flood_mute_min)], bucket)
        else
          ([Act.delete, Act.log (linkLogText ev.userDisp),
            Act.restrictA s.flood_mute_min], bucket)
      else ([Act.delete, Act.log (linkLogText ev.userDisp)], bucket)
    else ([Act.delete], bucket)
  else newbie_part s joinTs ev bucket

/-- `security_filter` (src/main.py:280-363) for one event: the admin skip,
then the anti-link, newbie-content and flood blocks.  `s` is the chat's
settings row (`get_settings` always yields a row, so the `if not s` guard is
dead), `wl` its whitelist table, `joinTs` the `join_times` row of
`(chat_id, user_id)`, `bucket` the in-memory `FLOOD_BUCKET` entry of that
key.  The result is the emitted action list and the bucket afterwards. -/
def security_filter (s : ChatSettings) (wl : Whitelist) (joinTs : Option Int)
    (ev : Event) (bucket : List Int) : List Act × List Int :=
  if admin_gate ev then ([], bucket)
  else links_part s wl joinTs ev bucket

/-- Sequential processing of the messages of one `(chat_id, user_id)` key:
each event reads the bucket the previous one stored.  Returns the per-event
action lists and the final bucket. -/
def run_filter (s : ChatSettings) (wl : Whitelist) (joinTs : Option Int) :
    List Event → List Int → List (List Act) × List Int
  | [], bucket => ([], bucket)
  | ev :: rest, bucket =>
    let p := security_filter s wl joinTs ev bucket
    let q := run_filter s wl joinTs rest p.2
    (p.1 :: q.1, q.2)

def isRestrict : Act → Bool
  | Act.restrictA _ => true
  | _ => false

/-- Number of restrict actions in one emitted decision. -/
def restrictCount (acts : List Act) : Nat :=
  (acts.filter isRestrict).length

/-- `flood_cmd` (src/main.py:233-245) after its admin check: `/flood N
WINDOW_SEC MUTE_MIN` — four whitespace-separated parts, the last three all
digits, each written through `set_setting` with no further range check (`0`
passes `isdigit`); otherwise the usage reply and no write.  Returns the row
state and whether the values were accepted. -/
def flood_cmd (row : Option ChatSettings) (text : String) :
    Option ChatSettings × Bool :=
  let parts := pySplit text
  if parts.length = 4 && (parts.drop 1).all pyIsDigit then
    match parts with
    | _ :: pn :: pw :: pm :: _ =>
      let r1 := (set_setting row "flood_n" (DbValue.intV (pyToNat pn))).1
      let r2 := (set_setting r1 "flood_window_sec" (DbValue.intV (pyToNat pw))).1
      let r3 := (set_setting r2 "flood_mute_min" (DbValue.intV (pyToNat pm))).1
      (r3, true)
    | _ => (row, false)
  else (row, false)

/-- A message event with no admin rights, no URL, no forward and no media:
only the flood block of `security_filter` can act on it. -/
abbrev plain_msg (s : ChatSettings) (joinTs : Option Int) (e : Event) : Prop :=
  admin_gate e = false ∧ extract_domains (evText e) = [] ∧
    is_newbie s joinTs e.now = false

/-- A concrete plain text message at time `t` from an ordinary member. -/
def plainEv (t : Int) : Event :=
  { memberStatus := some "member", msgText := some "hello", msgCaption := none,
    hasForwardDate := false, hasForwardOrigin := false, hasPhoto := false,
    hasVideo := false, hasDocument := false, userDisp := "u", now := t,
    deleteOk := true, restrictOk := true }

/-- A concrete message with an unwhitelisted link (the spec's end-to-end
scenario text) from an ordinary member at `t = 60`. -/
def linkEv : Event :=
  { memberStatus := some "member",
    msgText := some "check ftp://nope and http://evil.com", msgCaption := none,
    hasForwardDate := false, hasForwardOrigin := false, hasPhoto := false,
    hasVideo := false, hasDocument := false, userDisp := "u", now := 60,
    deleteOk := true, restrictOk := true }

/-- The link message of `linkEv` with a recorded join timestamp of `0`:
the sender joined within the protection window, yet `if join_ts:` is false. -/
def zeroJoinEv : Event :=
  { memberStatus := some "member", msgText := some "http://evil.com",
    msgCaption := none, hasForwardDate := false, hasForwardOrigin := false,
    hasPhoto := false, hasVideo := false, hasDocument := false,
    userDisp := "u", now := 60, deleteOk := true, restrictOk := true }

/-- A link message whose `msg.delete()` call raises. -/
def failDelEv : Event :=
  { memberStatus := some "member", msgText := some "http://evil.com",
    msgCaption := none, hasForwardDate := false, hasForwardOrigin := false,
    hasPhoto := false, hasVideo := false, hasDocument := false,
    userDisp := "u", now := 60, deleteOk := false, restrictOk := true }

/-- On a plain message the admin skip and the anti-link and newbie-content
blocks all fall through: `security_filter` is exactly its flood block. -/
lemma security_filter_plain (s : ChatSettings) (wl : Whitelist)
    (joinTs : Option Int) (ev : Event) (bucket : List Int)
    (h : plain_msg s joinTs ev) :
    security_filter s wl joinTs ev bucket = flood_part s ev bucket := by
  obtain ⟨h1, h2, h3⟩ := h
  by_cases hal : s.anti_links = 1 <;>
    simp [security_filter, links_part, newbie_part, h1, h2, h3, hal]

/-- When every bucket entry is still inside the window, the trim keeps the
whole bucket and the new bucket is the old one plus the event time. -/
lemma flood_part_bucket (s : ChatSettings) (ev : Event) (bucket : List Int)
    (hkeep : ∀ t ∈ bucket, ev.now - t ≤ s.flood_window_sec) :
    (flood_part s ev bucket).2 = bucket ++ [ev.now] := by
  have hf : bucket.filter (fun t => decide (ev.now - t ≤ s.flood_window_sec)) = bucket :=
    List.filter_eq_self.mpr (fun t ht => decide_eq_true (hkeep t ht))
  simp only [flood_part, hf]
  split <;> rfl

/-- When every bucket entry is kept, the flood block emits one restrict
exactly when the grown bucket length exceeds `flood_n`. -/
lemma flood_part_count (s : ChatSettings) (ev : Event) (bucket : List Int)
    (hkeep : ∀ t ∈ bucket, ev.now - t ≤ s.flood_window_sec) :
    restrictCount (flood_part s ev bucket).1 =
      if ((bucket.length + 1 : Nat) : Int) > s.flood_n then 1 else 0 := by
  have hf : bucket.filter (fun t => decide (ev.now - t ≤ s.flood_window_sec)) = bucket :=
    List.filter_eq_self.mpr (fun t ht => decide_eq_true (hkeep t ht))
  simp only [flood_part, hf, List.length_append, List.length_singleton]
  by_cases hgt : ((bucket.length + 1 : Nat) : Int) > s.flood_n
  · rw [if_pos hgt, if_pos hgt]
    by_cases hro : ev.restrictOk <;>
      simp [hro, restrictCount, isRestrict]
  · rw [if_neg hgt, if_neg hgt]
    simp [restrictCount]

/-- Restrict counts of a run of plain messages that all lie within one
`flood_window_sec` window of each other and of the starting bucket: the
`i`-th message (0-based) is answered by exactly one restrict when the grown
bucket length `bucket.length + i + 1` exceeds `flood_n`, else by none. -/
lemma run_filter_counts (s : ChatSettings) (wl : Whitelist) (joinTs : Option Int)
    (n : Nat) (hn : s.flood_n = (n : Int)) :
    ∀ (evs : List Event) (bucket : List Int),
      (∀ e ∈ evs, plain_msg s joinTs e) →
      (∀ t ∈ bucket, ∀ e ∈ evs, e.now - t ≤ s.flood_window_sec) →
      evs.Pairwise (fun a b => b.now - a.now ≤ s.flood_window_sec) →
      (run_filter s wl joinTs evs bucket).1.map restrictCount =
        (List.range evs.length).map
          (fun i => if n < bucket.length + i + 1 then 1 else 0)
  | [], _, _, _, _ => by simp [run_filter]
  | e :: rest, bucket, hplain, hbk, hpair => by
    have hsf := security_filter_plain s wl joinTs e bucket
      (hplain e (List.mem_cons_self _ _))
    have hkeep : ∀ t ∈ bucket, e.now - t ≤ s.flood_window_sec :=
      fun t ht => hbk t ht e (List.mem_cons_self _ _)
    have hb2 := flood_part_bucket s e bucket hkeep
    have hc := flood_part_count s e bucket hkeep
    have hpc := List.pairwise_cons.mp hpair
    have ih := run_filter_counts s wl joinTs n hn rest (bucket ++ [e.now])
      (fun e' he' => hplain e' (List.mem_cons_of_mem _ he'))
      (fun t ht e' he' => by
        rcases List.mem_append.mp ht with h | h
        · exact hbk t h e' (List.mem_cons_of_mem _ he')
        · rw [List.mem_singleton.mp h]
          exact hpc.1 e' he')
      hpc.2
    simp only [run_filter, hsf, hb2, List.map_cons, List.length_cons]
    rw [hc, ih, List.range_succ_eq_map, List.map_cons, List.map_map]
    congr 1
    · rw [hn, Nat.add_zero]
      by_cases hlt : n < bucket.length + 1
      · rw [if_pos hlt, if_pos (by exact_mod_cast hlt)]
      · rw [if_neg hlt, if_neg (by exact_mod_cast hlt)]
    · apply List.map_congr_left
      intro i _
      have harith : bucket.length + 1 + i + 1 = bucket.length + (i + 1) + 1 := by omega
      simp [Function.comp, List.length_append, harith]

/-- When the whole old bucket has aged out of the window and `flood_n ≥ 1`,
the flood block emits nothing and the bucket restarts at the event time. -/
lemma flood_part_fresh (s : ChatSettings) (ev : Event) (bucket : List Int)
    (hfn : 1 ≤ s.flood_n)
    (hdrop : ∀ t ∈ bucket, s.flood_window_sec < ev.now - t) :
    flood_part s ev bucket = ([], [ev.now]) := by
  have hf : bucket.filter (fun t => decide (ev.now - t ≤ s.flood_window_sec)) = [] := by
    rw [List.filter_eq_nil_iff]
    intro t ht
    simp only [decide_eq_true_eq]
    have := hdrop t ht
    omega
  simp only [flood_part, hf, List.nil_append, List.length_singleton]
  rw [if_neg (by omega : ¬ (((1 : Nat) : Int) > s.flood_n))]

/-- A run of plain messages whose consecutive gaps all exceed the window,
started from a bucket the first message has already outwaited, never emits
a restrict (given the documented invariant `flood_n ≥ 1`). -/
lemma run_filter_gap (s : ChatSettings) (wl : Whitelist) (joinTs : Option Int)
    (hfn : 1 ≤ s.flood_n) :
    ∀ (evs : List Event) (bucket : List Int),
      (∀ e ∈ evs, plain_msg s joinTs e) →
      (∀ t ∈ bucket, ∀ hd, evs.head? = some hd → s.flood_window_sec < hd.now - t) →
      evs.Chain' (fun a b => s.flood_window_sec < b.now - a.now) →
      (run_filter s wl joinTs evs bucket).1.map restrictCount =
        List.replicate evs.length 0
  | [], _, _, _, _ => by simp [run_filter]
  | e :: rest, bucket, hplain, hbk, hchain => by
    have hsf := security_filter_plain s wl joinTs e bucket
      (hplain e (List.mem_cons_self _ _))
    have hdrop : ∀ t ∈ bucket, s.flood_window_sec < e.now - t :=
      fun t ht => hbk t ht e rfl
    have hfp := flood_part_fresh s e bucket hfn hdrop
    have hcc := List.chain'_cons'.mp hchain
    have ih := run_filter_gap s wl joinTs hfn rest [e.now]
      (fun e' he' => hplain e' (List.mem_cons_of_mem _ he'))
      (fun t ht hd hhd => by
        rw [List.mem_singleton.mp ht]
        exact hcc.1 hd hhd)
      hcc.2
    simp only [run_filter, hsf, hfp, List.map_cons, List.length_cons,
      List.replicate_succ]
    rw [ih]
    simp [restrictCount]

/-- The restrict-count pattern of `flood_n + 1` fresh messages: `flood_n`
zeros then a single one. -/
lemma range_map_threshold (n : Nat) :
    (List.range (n + 1)).map (fun i => if n < i + 1 then 1 else 0) =
      List.replicate n 0 ++ [1] := by
  rw [List.range_succ, List.map_append, List.map_singleton]
  congr 1
  · rw [List.eq_replicate_iff]
    refine ⟨by simp, ?_⟩
    intro b hb
    obtain ⟨i, hi, rfl⟩ := List.mem_map.mp hb
    rw [if_neg (by have := List.mem_range.mp hi; omega)]
  · rw [if_pos (by omega)]

/-- C1: for an inbound message whose sender resolves to admin
(`is_adminish` status), `security_filter` emits no action at all — the bare
`return` is the allow decision: no delete, no restrict, no log — and the
flood bucket is left untouched, whatever the message content. -/
theorem admin_bypass_allows (s : ChatSettings) (wl : Whitelist)
    (joinTs : Option Int) (ev : Event) (bucket : List Int) (st : String)
    (hst : ev.memberStatus = some st) (hadm : is_adminish st = true) :
    security_filter s wl joinTs ev bucket = ([], bucket) := by
  have hg : admin_gate ev = true := by
    unfold admin_gate
    rw [hst]
    exact hadm
  simp [security_filter, hg]

theorem admin_bypass_allows_w :
    security_filter default_settings [] (some 59)
      { memberStatus := some "administrator",
        msgText := some "check ftp://nope and http://evil.com",
        msgCaption := none, hasForwardDate := true, hasForwardOrigin := false,
        hasPhoto := true, hasVideo := false, hasDocument := false,
        userDisp := "a", now := 60, deleteOk := true, restrictOk := true }
      [55, 56, 57, 58, 59, 60] = ([], [55, 56, 57, 58, 59, 60]) :=
  admin_bypass_allows default_settings [] (some 59) _ _ "administrator" rfl rfl

/-- C2 counterexample: the sender's join time is recorded as epoch `0` and
the event is at `now = 60`, well inside the default 15-minute protection
window, anti-links is on and `evil.com` is not whitelisted — yet the
decision is only `Delete, Log`: no `Restrict` is emitted, because
`if join_ts:` treats the recorded timestamp `0` as falsy. -/
theorem newbie_link_zero_join_cex :
    (zeroJoinEv.now - 0 < default_settings.newbie_protect_min * 60) ∧
    extract_domains (evText zeroJoinEv) = ["evil.com"] ∧
    domain_allowed [] "evil.com" = false ∧
    security_filter default_settings [] (some 0) zeroJoinEv [] =
      ([Act.delete, Act.log (linkLogText "u")], []) ∧
    Act.restrictA default_settings.flood_mute_min ∉
      (security_filter default_settings [] (some 0) zeroJoinEv []).1 := by
  refine ⟨by decide, by decide, by decide, by decide, by decide⟩

/-- C2 (amended): for a non-admin newbie — join time recorded as a *nonzero*
timestamp within `newbie_protect_min` minutes of the event — posting a
message with some unwhitelisted domain while anti-links is on, and with both
actuator calls succeeding, the decision is exactly
`Delete`, `Log`, `Restrict(flood_mute_min)`, `Log`, in that order. -/
theorem newbie_link_double_action (s : ChatSettings) (wl : Whitelist)
    (j : Int) (ev : Event) (bucket : List Int)
    (hadm : admin_gate ev = false)
    (hal : s.anti_links = 1)
    (hj : j ≠ 0)
    (hnb : ev.now - j < s.newbie_protect_min * 60)
    (hdom : (extract_domains (evText ev)).all (fun d => domain_allowed wl d) = false)
    (hdel : ev.deleteOk = true) (hres : ev.restrictOk = true) :
    security_filter s wl (some j) ev bucket =
      ([Act.delete, Act.log (linkLogText ev.userDisp),
        Act.restrictA s.flood_mute_min,
        Act.log (newbieMuteLogText s.flood_mute_min)], bucket) := by
  have hne : extract_domains (evText ev) ≠ [] := by
    intro h
    rw [h] at hdom
    simp at hdom
  have hnb' : is_newbie s (some j) ev.now = true := by
    simp only [is_newbie]
    rw [if_neg hj]
    exact decide_eq_true hnb
  simp [security_filter, links_part, hadm, hal, hne, hdom, hnb', hdel, hres]

theorem newbie_link_double_action_w :
    security_filter default_settings [] (some 5) linkEv [] =
      ([Act.delete, Act.log (linkLogText "u"),
        Act.restrictA default_settings.flood_mute_min,
        Act.log (newbieMuteLogText default_settings.flood_mute_min)], []) :=
  newbie_link_double_action default_settings [] 5 linkEv []
    (by decide) (by decide) (by decide) (by decide) (by decide)
    (by decide) (by decide)

/-- C3 counterexample: a newbie posts an unwhitelisted link, the
`msg.delete()` call raises — the handler returns at once (src/main.py:318),
so neither the link `Log` nor the newbie `Restrict` and its `Log` are
emitted, contrary to the claim that the rest of the decision still is. -/
theorem delete_failure_aborts_cex :
    (failDelEv.now - 5 < default_settings.newbie_protect_min * 60) ∧
    security_filter default_settings [] (some 5) failDelEv [7] =
      ([Act.delete], [7]) := by
  refine ⟨by decide, by decide⟩

/-- C3 (amended): when the anti-link rule fires and the delete call raises,
the exception is swallowed (the handler does not propagate it) but the rest
of the decision is aborted: the emitted decision is just the delete attempt
— no `Log`, no newbie `Restrict` — and the flood bucket is untouched. -/
theorem delete_failure_aborts (s : ChatSettings) (wl : Whitelist)
    (joinTs : Option Int) (ev : Event) (bucket : List Int)
    (hadm : admin_gate ev = false)
    (hal : s.anti_links = 1)
    (hdom : (extract_domains (evText ev)).all (fun d => domain_allowed wl d) = false)
    (hdel : ev.deleteOk = false) :
    security_filter s wl joinTs ev bucket = ([Act.delete], bucket) := by
  have hne : extract_domains (evText ev) ≠ [] := by
    intro h
    rw [h] at hdom
    simp at hdom
  simp [security_filter, links_part, hadm, hal, hne, hdom, hdel]

theorem delete_failure_aborts_w :
    security_filter default_settings ["good.com"] none
      { linkEv with deleteOk := false } [7] = ([Act.delete], [7]) :=
  delete_failure_aborts default_settings ["good.com"] none
    { linkEv with deleteOk := false } [7] (by decide) (by decide)
    (by decide) (by decide)

/-- C4 counterexample: `set_setting` happily writes the out-of-range flood
count `0` (claim: it must fail with `InvalidSetting` for a non-positive
flood count), and the `/flood 0 10 15` command accepts it too, since
`"0".isdigit()` holds and no range check exists. -/
theorem set_setting_unvalidated_cex :
    set_setting (some default_settings) "flood_n" (DbValue.intV 0) =
      (some { default_settings with flood_n := 0 }, true) ∧
    flood_cmd (some default_settings) "/flood 0 10 15" =
      (some { default_settings with flood_n := 0 }, true) := by
  refine ⟨by decide, by decide⟩

/-- C4 (amended): `set_setting` interpolates the field name into the SQL
text and performs no validation of its own: a known column is updated with
*any* supplied value (no range check — `flood_n := v` succeeds for every
`v`, including `0` and negatives), while an unknown field name surfaces as a
storage-level SQL error, not an `InvalidSetting` validation failure; in both
cases the row is implicitly created (with defaults) if absent. -/
theorem set_setting_unvalidated (row : Option ChatSettings) (v : Int) :
    set_setting row "flood_n" (DbValue.intV v) =
      (some { ensure_chat row with flood_n := v }, true) ∧
    set_setting row "bogus_field" (DbValue.intV v) =
      (some (ensure_chat row), false) := by
  refine ⟨rfl, rfl⟩

/-- When the anti-link rule fires (anti-links on, extraction nonempty, not
all domains whitelisted), `links_part` is the link branch alone, whatever the
forward/media flags: one of the four delete-led outcomes, always with the
bucket untouched. -/
lemma links_part_fire (s : ChatSettings) (wl : Whitelist) (joinTs : Option Int)
    (ev : Event) (bucket : List Int)
    (hal : s.anti_links = 1)
    (hne : extract_domains (evText ev) ≠ [])
    (hdom : (extract_domains (evText ev)).all (fun d => domain_allowed wl d) = false) :
    links_part s wl joinTs ev bucket =
      (if ev.deleteOk then
        if is_newbie s joinTs ev.now then
          if ev.restrictOk then
            ([Act.delete, Act.log (linkLogText ev.userDisp),
              Act.restrictA s.flood_mute_min,
              Act.log (newbieMuteLogText s.flood_mute_min)], bucket)
          else
            ([Act.delete, Act.log (linkLogText ev.userDisp),
              Act.restrictA s.flood_mute_min], bucket)
        else ([Act.delete, Act.log (linkLogText ev.userDisp)], bucket)
       else ([Act.delete], bucket)) := by
  simp [links_part, hal, hne, hdom]

/-- C7: with `example.com` whitelisted, `sub.example.com` and `example.com`
are allowed while `notexample.com` and `example.com.evil.net` are not; in
general `domain_allowed` holds iff some whitelist entry `w` satisfies
`d == w` or `d` ends with `"." + w` (on the lower-cased domain). -/
theorem domain_subdomain_rule :
    domain_allowed ["example.com"] "sub.example.com" = true ∧
    domain_allowed ["example.com"] "example.com" = true ∧
    domain_allowed ["example.com"] "notexample.com" = false ∧
    domain_allowed ["example.com"] "example.com.evil.net" = false ∧
    ∀ (wl : Whitelist) (d : String),
      domain_allowed wl d = true ↔
        ∃ w ∈ wl, pyLower d = w ∨ pyEndsWith (pyLower d) ("." ++ w) = true := by
  refine ⟨by decide, by decide, by decide, by decide, ?_⟩
  intro wl d
  simp [domain_allowed, List.any_eq_true, Bool.or_eq_true, beq_iff_eq]

/-- C8: once the anti-link rule fires for a non-admin message, the rule is
terminal — the flood bucket of the key is returned unchanged (no trim, no
appended timestamp), and the newbie forward/media rules are never evaluated:
the decision is the same as for the identical event with every forward and
media flag cleared. -/
theorem link_rule_terminal (s : ChatSettings) (wl : Whitelist)
    (joinTs : Option Int) (ev : Event) (bucket : List Int)
    (hadm : admin_gate ev = false)
    (hal : s.anti_links = 1)
    (hdom : (extract_domains (evText ev)).all (fun d => domain_allowed wl d) = false) :
    (security_filter s wl joinTs ev bucket).2 = bucket ∧
    security_filter s wl joinTs ev bucket =
      security_filter s wl joinTs (clearFlags ev) bucket := by
  have hne : extract_domains (evText ev) ≠ [] := by
    intro h
    rw [h] at hdom
    simp at hdom
  have e1 : security_filter s wl joinTs ev bucket = links_part s wl joinTs ev bucket := by
    simp [security_filter, hadm]
  have e2 : security_filter s wl joinTs (clearFlags ev) bucket =
      links_part s wl joinTs (clearFlags ev) bucket := by
    simp [security_filter, show admin_gate (clearFlags ev) = false from hadm]
  have key := links_part_fire s wl joinTs ev bucket hal hne hdom
  have key2 := links_part_fire s wl joinTs (clearFlags ev) bucket hal hne hdom
  constructor
  · rw [e1, key]
    cases hd : ev.deleteOk <;> cases hnn : is_newbie s joinTs ev.now <;>
      cases hro : ev.restrictOk <;> simp [hd, hnn, hro]
  · exact e1.trans (key.trans (key2.symm.trans e2.symm))

theorem link_rule_terminal_w :
    ((security_filter default_settings [] (some 5)
        { linkEv with hasForwardDate := true, hasPhoto := true } [7]).2 = [7]) ∧
    security_filter default_settings [] (some 5)
        { linkEv with hasForwardDate := true, hasPhoto := true } [7] =
      security_filter default_settings [] (some 5) linkEv [7] :=
  link_rule_terminal default_settings [] (some 5)
    { linkEv with hasForwardDate := true, hasPhoto := true } [7]
    (by decide) (by decide) (by decide)

/-- C9: `add_whitelist` is idempotent after normalization — adding two
spellings of the same domain (case or surrounding whitespace differences)
leaves the second add a no-op, and `list_whitelist` shows exactly one entry
for that domain (given the duplicate-free table invariant). -/
theorem whitelist_add_idempotent (wl : Whitelist) (a b : String)
    (hnd : wl.Nodup)
    (hab : pyStrip (pyLower a) = pyStrip (pyLower b)) :
    add_whitelist (add_whitelist wl a) b = add_whitelist wl a ∧
    (list_whitelist (add_whitelist (add_whitelist wl a) b)).count
      (pyStrip (pyLower a)) = 1 := by
  have hmem : pyStrip (pyLower a) ∈ add_whitelist wl a := by
    by_cases h : wl.contains (pyStrip (pyLower a)) = true
    · have hw : add_whitelist wl a = wl := by
        show (if wl.contains (pyStrip (pyLower a)) then wl
          else wl ++ [pyStrip (pyLower a)]) = wl
        rw [if_pos h]
      rw [hw]
      exact List.elem_iff.mp h
    · have hw : add_whitelist wl a = wl ++ [pyStrip (pyLower a)] := by
        show (if wl.contains (pyStrip (pyLower a)) then wl
          else wl ++ [pyStrip (pyLower a)]) = _
        rw [if_neg h]
      rw [hw]
      exact List.mem_append_right _ (List.mem_singleton_self _)
  have hidem : add_whitelist (add_whitelist wl a) b = add_whitelist wl a := by
    have hc : (add_whitelist wl a).contains (pyStrip (pyLower b)) = true := by
      rw [← hab]
      exact List.elem_iff.mpr hmem
    show (if (add_whitelist wl a).contains (pyStrip (pyLower b)) then add_whitelist wl a
      else add_whitelist wl a ++ [pyStrip (pyLower b)]) = add_whitelist wl a
    rw [if_pos hc]
  have hcount : (add_whitelist wl a).count (pyStrip (pyLower a)) = 1 := by
    by_cases h : wl.contains (pyStrip (pyLower a)) = true
    · have hw : add_whitelist wl a = wl := by
        show (if wl.contains (pyStrip (pyLower a)) then wl
          else wl ++ [pyStrip (pyLower a)]) = wl
        rw [if_pos h]
      rw [hw]
      exact List.count_eq_one_of_mem hnd (List.elem_iff.mp h)
    · have hw : add_whitelist wl a = wl ++ [pyStrip (pyLower a)] := by
        show (if wl.contains (pyStrip (pyLower a)) then wl
          else wl ++ [pyStrip (pyLower a)]) = _
        rw [if_neg h]
      rw [hw, List.count_append]
      rw [List.count_eq_zero.mpr (fun hm => h (List.elem_iff.mpr hm))]
      simp
  refine ⟨hidem, ?_⟩
  rw [hidem]
  exact ((List.mergeSort_perm (add_whitelist wl a) _).count_eq _).trans hcount

theorem whitelist_add_idempotent_w :
    add_whitelist (add_whitelist ["other.com"] " Example.COM") "example.com " =
      add_whitelist ["other.com"] " Example.COM" ∧
    (list_whitelist (add_whitelist (add_whitelist ["other.com"] " Example.COM")
      "example.com ")).count (pyStrip (pyLower " Example.COM")) = 1 :=
  whitelist_add_idempotent ["other.com"] " Example.COM" "example.com "
    (by decide) (by decide)

/-- C5: a non-admin, non-newbie user sending exactly `flood_n + 1` plain
messages inside one `flood_window_sec` window (fresh bucket) draws exactly
one `Restrict`, emitted on the `(flood_n+1)`-th message and on none of the
earlier ones: the per-message restrict counts are `flood_n` zeros then a
single one. -/
theorem flood_threshold_once (s : ChatSettings) (wl : Whitelist)
    (joinTs : Option Int) (n : Nat) (hn : s.flood_n = (n : Int))
    (evs : List Event) (hlen : evs.length = n + 1)
    (hplain : ∀ e ∈ evs, plain_msg s joinTs e)
    (hwin : evs.Pairwise (fun a b => b.now - a.now ≤ s.flood_window_sec)) :
    (run_filter s wl joinTs evs []).1.map restrictCount =
      List.replicate n 0 ++ [1] := by
  have h := run_filter_counts s wl joinTs n hn evs [] hplain (by simp) hwin
  rw [h, hlen]
  simpa using range_map_threshold n

theorem flood_threshold_once_w :
    (run_filter { default_settings with flood_n := 2 } [] none
        [plainEv 0, plainEv 1, plainEv 2] []).1.map restrictCount =
      List.replicate 2 0 ++ [1] :=
  flood_threshold_once { default_settings with flood_n := 2 } [] none 2 rfl
    [plainEv 0, plainEv 1, plainEv 2] rfl (by decide) (by decide)

/-- C6: if the consecutive gaps of a non-admin, non-newbie user's plain
messages all strictly exceed `flood_window_sec`, no flood `Restrict` is ever
emitted however many messages are sent (under the documented settings
invariant `flood_n ≥ 1`): every per-message restrict count is zero. -/
theorem window_expiry_no_mute (s : ChatSettings) (wl : Whitelist)
    (joinTs : Option Int) (hfn : 1 ≤ s.flood_n) (evs : List Event)
    (hplain : ∀ e ∈ evs, plain_msg s joinTs e)
    (hgap : evs.Chain' (fun a b => s.flood_window_sec < b.now - a.now)) :
    (run_filter s wl joinTs evs []).1.map restrictCount =
      List.replicate evs.length 0 :=
  run_filter_gap s wl joinTs hfn evs [] hplain (by simp) hgap

theorem window_expiry_no_mute_w :
    (run_filter default_settings [] none
        [plainEv 0, plainEv 11, plainEv 22, plainEv 33, plainEv 44, plainEv 55,
         plainEv 66, plainEv 77] []).1.map restrictCount =
      List.replicate 8 0 :=
  window_expiry_no_mute default_settings [] none (by decide)
    [plainEv 0, plainEv 11, plainEv 22, plainEv 33, plainEv 44, plainEv 55,
     plainEv 66, plainEv 77] (by decide)
    (by repeat first
          | exact List.Chain.nil
          | refine List.Chain.cons (by decide) ?_)

/-- C10: a non-admin, non-newbie user who keeps sending plain messages
within one window is restricted on *every* message whose grown bucket count
exceeds `flood_n` — one mute per offending message, not one per episode: the
`i`-th (0-based) message's restrict count is `1` exactly when `i + 1 >
flood_n`, so the `(flood_n+2)`-th, `(flood_n+3)`-th, … messages each draw a
fresh `Restrict`. -/
theorem flood_per_message_mutes (s : ChatSettings) (wl : Whitelist)
    (joinTs : Option Int) (n : Nat) (hn : s.flood_n = (n : Int))
    (evs : List Event)
    (hplain : ∀ e ∈ evs, plain_msg s joinTs e)
    (hwin : evs.Pairwise (fun a b => b.now - a.now ≤ s.flood_window_sec)) :
    (run_filter s wl joinTs evs []).1.map restrictCount =
      (List.range evs.length).map (fun i => if n < i + 1 then 1 else 0) := by
  have h := run_filter_counts s wl joinTs n hn evs [] hplain (by simp) hwin
  simpa using h

theorem flood_per_message_mutes_w :
    (run_filter { default_settings with flood_n := 2 } [] none
        [plainEv 0, plainEv 1, plainEv 2, plainEv 3, plainEv 4] []).1.map
      restrictCount = [0, 0, 1, 1, 1] := by
  have h := flood_per_message_mutes { default_settings with flood_n := 2 } []
    none 2 rfl [plainEv 0, plainEv 1, plainEv 2, plainEv 3, plainEv 4]
    (by decide) (by decide)
  exact h.trans (by decide)
